import Mathlib

/-!
Shallow embedding of the `pcluster` command-line front end, covering
`src/cli/src/pcluster/cli.py` (argument schema, dispatch, process entrypoint)
and `src/cli/src/pcluster/cli/commands/image_logs.py` (the
`export-image-logs` workflow), together with spec-modelled stubs for the
collaborators whose source is not included (the FailureLevel enumeration,
`utils.error`, `_validate_output_file_path`, and the log-export delegate).
-/

namespace PCluster

/-! ## Python runtime conventions used by the embedding -/

/-- Truthiness of an optional Python string: `None` and the empty string are
falsy, every other string is truthy. -/
def truthyStr : Option String → Bool
  | none => false
  | some s => !(s = "")

/-- Python `a or b` on an optional string `a` with a string default `b`:
returns `a` when it is truthy, otherwise `b`. -/
def pyOr (a : Option String) (b : String) : String :=
  match a with
  | some s => if s = "" then b else s
  | none => b

/-- An apostrophe character, used inside fixed user-facing messages. -/
def apos : String := String.singleton (Char.ofNat 39)

/-- Python str.upper on the ASCII strings this program compares: uppercase
every character. -/
def pyUpper (s : String) : String := String.mk (s.data.map Char.toUpper)

/-! ## FailureLevel and the failure-level type coercion (cli.py lines 134-138) -/

/-- Modelled from the spec: the `FailureLevel` enumeration from
`pcluster.validators.common` (not under src/), an ordered enumeration
INFO < WARNING < ERROR whose member names are INFO, WARNING, ERROR. -/
inductive FailureLevel
  | INFO
  | WARNING
  | ERROR
deriving DecidableEq, Repr

/-- Member names of the FailureLevel enumeration. -/
def FailureLevel.name : FailureLevel → String
  | .INFO => "INFO"
  | .WARNING => "WARNING"
  | .ERROR => "ERROR"

/-- Python `FailureLevel[name]`: lookup of an enum member by its exact name,
raising KeyError (here: `none`) when no member has that name. -/
def FailureLevel.ofName (s : String) : Option FailureLevel :=
  if s = "INFO" then some .INFO
  else if s = "WARNING" then some .WARNING
  else if s = "ERROR" then some .ERROR
  else none

/-- Result of an argparse type-coercion function: either a coerced value or
an ArgumentTypeError carrying a message. -/
inductive CoerceResult (α : Type)
  | ok (value : α)
  | argumentTypeError (msg : String)
deriving DecidableEq, Repr

/-- Embedding of `_failure_level_type` (cli.py lines 134-138): uppercases the
supplied string, looks it up among the FailureLevel member names, and raises
an ArgumentTypeError on a KeyError. -/
def _failure_level_type (failure_level_string : String) : CoerceResult FailureLevel :=
  match FailureLevel.ofName (pyUpper failure_level_string) with
  | some level => .ok level
  | none => .argumentTypeError ("invalid value " ++ apos ++ failure_level_string ++ apos)

/-! ## The argument schema of cli.py -/

/-- The subcommands registered by the schema-construction function of cli.py
(one `add_parser` call each). -/
inductive Subcommand
  | create
  | update
  | delete
  | start
  | stop
  | status
  | list
  | instances
  | ssh
  | buildImage
  | deleteImage
  | describeImage
  | listImages
  | configure
  | version
  | dcv
deriving DecidableEq, Repr

/-- The command-line name of each subcommand, as passed to `add_parser`. -/
def Subcommand.cliName : Subcommand → String
  | .create => "create"
  | .update => "update"
  | .delete => "delete"
  | .start => "start"
  | .stop => "stop"
  | .status => "status"
  | .list => "list"
  | .instances => "instances"
  | .ssh => "ssh"
  | .buildImage => "build-image"
  | .deleteImage => "delete-image"
  | .describeImage => "describe-image"
  | .listImages => "list-images"
  | .configure => "configure"
  | .version => "version"
  | .dcv => "dcv"

/-- The `__name__` of the handler function each subcommand binds through
`set_defaults(func=...)` in cli.py. -/
def Subcommand.funcName : Subcommand → String
  | .create => "create"
  | .update => "update"
  | .delete => "delete"
  | .start => "start"
  | .stop => "stop"
  | .status => "status"
  | .list => "list_clusters"
  | .instances => "instances"
  | .ssh => "ssh"
  | .buildImage => "build_image"
  | .deleteImage => "delete_image"
  | .describeImage => "describe_image"
  | .listImages => "list_images"
  | .configure => "configure"
  | .version => "version"
  | .dcv => "dcv"

/-- Whether the schema attaches a `-r`/`--region` argument to the subcommand
(every subcommand calls `_addarg_region` except `version`; for `dcv` the
region flag lives on its nested `connect` sub-subcommand). -/
def Subcommand.hasRegionArg : Subcommand → Bool
  | .version => false
  | _ => true

/-- All command-line names at the top level of the schema. -/
def topLevelNames : List String :=
  ["create", "update", "delete", "start", "stop", "status", "list", "instances",
   "ssh", "build-image", "delete-image", "describe-image", "list-images",
   "configure", "version", "dcv"]

/-- Nested sub-subcommand names of the `dcv` subcommand. -/
def dcvSubNames : List String := ["connect"]

/-- Outcome of selecting the (nested) subcommand from argv under the schema of
cli.py: argparse either resolves a leaf subcommand (leaving the remaining
tokens to flag parsing) or prints usage to the error stream and exits with a
non-zero status (argparse uses status 2 for parse errors). Both top-level
subcommands and the dcv sub-subcommands are marked required in the schema. -/
inductive SelectOutcome
  | selected (cmd : String) (sub : Option String) (rest : List String)
  | usageExit (code : Nat)
deriving DecidableEq, Repr

/-- Subcommand selection under the schema of cli.py: the first positional
token must name a registered subcommand (subparsers are required, so an empty
argv is a usage error), and for `dcv` the next token must name a registered
sub-subcommand (the dcv subparsers are also required). -/
def selectSubcommand (argv : List String) : SelectOutcome :=
  match argv with
  | [] => .usageExit 2
  | c :: rest =>
    if topLevelNames.contains c then
      if c = "dcv" then
        match rest with
        | [] => .usageExit 2
        | s :: rest2 =>
          if dcvSubNames.contains s then .selected c (some s) rest2
          else .usageExit 2
      else .selected c none rest
    else .usageExit 2

/-! ## The process entrypoint main() of cli.py (lines 391-422) -/

/-- A parsed-arguments record as seen by main(): the selected subcommand and
the value of the region attribute. The outer Option is whether the attribute
exists on the namespace at all (it exists exactly when the subcommand schema
declares a region flag, holding `none` when the flag was not supplied). -/
structure ParsedArgs where
  command : Subcommand
  region : Option (Option String)
deriving DecidableEq, Repr

/-- The exceptions distinguished by the entrypoint of cli.py. -/
inductive PyExc
  | noCredentialsError
  | keyboardInterrupt
  | other (tyName : String) (msg : String)
deriving DecidableEq, Repr

/-- Behaviour of the dispatched handler when invoked: it either returns
normally or raises an exception that bubbles to the entrypoint. -/
inductive HandlerResult
  | ok
  | raises (e : PyExc)
deriving DecidableEq, Repr

/-- Record of one handler invocation: the `__name__` of the invoked function,
the extra-arguments list passed alongside (only the ssh handler receives
one), and the value of AWS_DEFAULT_REGION at the moment of the call. -/
structure Invocation where
  funcName : String
  extraArgsPassed : Option (List String)
  envAtCall : Option String
deriving DecidableEq, Repr

/-- Observable trace of one run of the dispatch body of main(): whether and
how the handler was invoked, whether usage was printed, log lines emitted at
error and info level by the except clauses, the final value of
AWS_DEFAULT_REGION, and the process exit code (0 for the implicit success
path, a sys.exit code otherwise). -/
structure MainTrace where
  invocation : Option Invocation
  usagePrinted : Bool
  errorLogs : List String
  infoLogs : List String
  finalEnv : Option String
  exitCode : Nat
deriving DecidableEq, Repr

/-- The region-environment assignment of main() (cli.py lines 402-404): when
the region attribute exists and its value is truthy, AWS_DEFAULT_REGION is
set to that value; otherwise the environment is left unchanged. -/
def setRegionEnv (args : ParsedArgs) (env : Option String) : Option String :=
  match args.region with
  | some v => if truthyStr v then v else env
  | none => env

/-- The try-suite tail of main() after a handler invocation (cli.py lines
414-422): a normal return completes with implicit exit code 0; the three
except clauses log a line and exit with code 1. -/
def afterHandler (args : ParsedArgs) (env : Option String)
    (extraPassed : Option (List String)) (h : HandlerResult) : MainTrace :=
  let inv : Invocation := ⟨args.command.funcName, extraPassed, env⟩
  match h with
  | .ok =>
    ⟨some inv, false, [], [], env, 0⟩
  | .raises .noCredentialsError =>
    ⟨some inv, false, ["AWS Credentials not found."], [], env, 1⟩
  | .raises .keyboardInterrupt =>
    ⟨some inv, false, [], ["Exiting..."], env, 1⟩
  | .raises (.other tyName msg) =>
    ⟨some inv, false, ["Unexpected error of type " ++ tyName ++ ": " ++ msg], [], env, 1⟩

/-- Embedding of the dispatch body of main() (cli.py lines 401-422): set the
region environment variable, then dispatch on the name of the bound handler
function; the ssh handler receives the unrecognized tokens as an extra
argument, every other handler is only invoked when there are none, a
non-empty extra-argument list printing usage and exiting with status 1. -/
def mainDispatch (args : ParsedArgs) (extra_args : List String)
    (env0 : Option String) (h : HandlerResult) : MainTrace :=
  let env1 := setRegionEnv args env0
  if args.command.funcName = "ssh" then
    afterHandler args env1 (some extra_args) h
  else if extra_args = [] then
    afterHandler args env1 none h
  else
    ⟨none, true, [], [], env1, 1⟩

/-! ## The export-image-logs workflow (image_logs.py) -/

/-- A wall-clock instant as read by datetime.now(), at the granularity the
format string of image_logs.py consumes. -/
structure DateTime where
  year : Nat
  month : Nat
  day : Nat
  hour : Nat
  minute : Nat
deriving DecidableEq, Repr

/-- Decimal rendering of a natural number zero-padded to width 2, as the
strftime directives %m, %d, %H and %M produce for in-range values. -/
def pad2 (n : Nat) : String :=
  if n < 10 then "0" ++ toString n else toString n

/-- Decimal rendering of a natural number zero-padded to width 4, as the
strftime directive %Y produces for in-range values. -/
def pad4 (n : Nat) : String :=
  if n < 10 then "000" ++ toString n
  else if n < 100 then "00" ++ toString n
  else if n < 1000 then "0" ++ toString n
  else toString n

/-- The strftime format string of image_logs.py line 50, %Y%m%d%H%M: a
timestamp at minute precision. -/
def strftime_YmdHM (t : DateTime) : String :=
  pad4 t.year ++ pad2 t.month ++ pad2 t.day ++ pad2 t.hour ++ pad2 t.minute

/-- A path is absolute when its first character is the filesystem root
separator. -/
def isAbsolutePath (p : String) : Bool :=
  match p.data with
  | [] => false
  | c :: _ => c = '/'

/-- The filesystem facts the workflow consults: the current working directory
against which os.path.realpath resolves relative paths, which paths exist as
files, and which paths have a writable parent directory. -/
structure FsModel where
  cwd : String
  fileExists : String → Bool
  parentWritable : String → Bool

/-- Embedding of os.path.realpath as used on image_logs.py line 49: an
absolute path stands for itself, a relative path is resolved against the
current working directory. -/
def realpath (cwd : String) (p : String) : String :=
  if isAbsolutePath p then p else cwd ++ "/" ++ p

/-- The parsed arguments consumed by ExportImageLogsCommand.execute. -/
structure ExportArgs where
  image_id : String
  output : Option String
  bucket : String
  bucketPrefixArg : Option String
  keep_s3_objects : Bool
  start_time : Option String
  end_time : Option String
deriving DecidableEq, Repr

/-- One call to the log-export delegate ImageBuilder.export_logs with the
keyword arguments image_logs.py lines 64-71 forward. -/
structure ExportCall where
  image_id : String
  output : String
  bucket : String
  bucketPrefixArg : Option String
  keep_s3_objects : Bool
  start_time : Option String
  end_time : Option String
deriving DecidableEq, Repr

/-- Modelled from the spec: `_validate_output_file_path` from
`pcluster.cli.commands.common` (not under src/) validates that the output
path is writable and does not silently overwrite an existing file, failing
with a path-conflict error otherwise. Failure is an exception carrying a
message; success returns unit. -/
def _validate_output_file_path (fs : FsModel) (path : String) : Except String Unit :=
  if fs.fileExists path then
    .error ("File " ++ path ++ " already exists")
  else if !(fs.parentWritable path) then
    .error ("Cannot write file " ++ path)
  else
    .ok ()

/-- Outcome of one run of ExportImageLogsCommand.execute. Modelled from the
spec for the errorExit constructor: `utils.error` (not under src/) prints its
message to the error stream and terminates the execution of the command with
a non-zero outcome. The raised constructor stands for an exception
propagating uncaught out of execute to the process entrypoint. -/
inductive ExecOutcome
  | success
  | errorExit (msg : String)
  | raised (e : String)
deriving DecidableEq, Repr

/-- Observable trace of one run of ExportImageLogsCommand.execute: the call
made to the log-export delegate, if any, and the outcome. -/
structure ExecTrace where
  delegateCalled : Option ExportCall
  outcome : ExecOutcome
deriving DecidableEq, Repr

/-- The output path computed on image_logs.py lines 49-51: the supplied
output value when truthy, otherwise the realpath of
image_id-logs-timestamp.tar.gz with the timestamp at minute precision. -/
def output_file_path (fs : FsModel) (now : DateTime) (args : ExportArgs) : String :=
  pyOr args.output
    (realpath fs.cwd (args.image_id ++ "-logs-" ++ strftime_YmdHM now ++ ".tar.gz"))

/-- The fixed user-facing message wrapping any exception caught by execute
(image_logs.py line 55). -/
def unableMsg (e : String) : String :=
  "Unable to export image" ++ apos ++ "s logs.\n" ++ e

/-- The fixed prefix of the user-facing message, before the newline and the
wrapped exception text. -/
def fixedUnable : String := "Unable to export image" ++ apos ++ "s logs."

/-- The delegate call _export_image_logs makes (image_logs.py lines 63-71):
every export parameter of the parsed arguments forwarded verbatim, together
with the validated output path. -/
def mkExportCall (args : ExportArgs) (path : String) : ExportCall :=
  ⟨args.image_id, path, args.bucket, args.bucketPrefixArg, args.keep_s3_objects,
   args.start_time, args.end_time⟩

/-- Embedding of ExportImageLogsCommand.execute (image_logs.py lines 47-55)
inlining _export_image_logs (lines 57-72): compute the output path, validate
it, delegate, and catch any exception from those steps, wrapping it with the
fixed user-facing message via utils.error. The behaviour of the log-export
delegate is a parameter: it either returns or raises an exception carrying a
message. -/
def ExportImageLogsCommand.execute (fs : FsModel) (now : DateTime)
    (delegate : ExportCall → Except String Unit) (args : ExportArgs) : ExecTrace :=
  match _validate_output_file_path fs (output_file_path fs now args) with
  | .error e => ⟨none, .errorExit (unableMsg e)⟩
  | .ok _ =>
    match delegate (mkExportCall args (output_file_path fs now args)) with
    | .error e =>
      ⟨some (mkExportCall args (output_file_path fs now args)), .errorExit (unableMsg e)⟩
    | .ok _ => ⟨some (mkExportCall args (output_file_path fs now args)), .success⟩

/-! ## Helper lemmas -/

/-- The handler function is named ssh exactly for the ssh subcommand. -/
theorem funcName_eq_ssh_iff (c : Subcommand) : c.funcName = "ssh" ↔ c = Subcommand.ssh := by
  cases c <;> simp [Subcommand.funcName]

/-- Enum lookup by name only returns a member carrying that name. -/
theorem ofName_eq_some (s : String) (l : FailureLevel)
    (h : FailureLevel.ofName s = some l) : s = l.name := by
  unfold FailureLevel.ofName at h
  split at h
  · cases h; assumption
  · split at h
    · cases h; assumption
    · split at h
      · cases h; assumption
      · cases h

/-- Whatever the handler does, afterHandler records its invocation together
with the environment at the call. -/
theorem afterHandler_invocation (args : ParsedArgs) (env : Option String)
    (extraPassed : Option (List String)) (h : HandlerResult) :
    (afterHandler args env extraPassed h).invocation =
      some ⟨args.command.funcName, extraPassed, env⟩ := by
  cases h with
  | ok => rfl
  | raises e => cases e <;> rfl

/-- Appending to an absolute path on the left keeps the path absolute. -/
theorem isAbsolutePath_append (a b : String) (h : isAbsolutePath a = true) :
    isAbsolutePath (a ++ b) = true := by
  unfold isAbsolutePath at *
  rw [String.data_append]
  cases hd : a.data with
  | nil => rw [hd] at h; simp at h
  | cons c cs => rw [hd] at h; simpa using h

/-- Resolution through realpath of any path against an absolute working
directory yields an absolute path. -/
theorem isAbsolutePath_realpath (cwd p : String) (h : isAbsolutePath cwd = true) :
    isAbsolutePath (realpath cwd p) = true := by
  unfold realpath
  split
  · assumption
  · exact isAbsolutePath_append _ _ (isAbsolutePath_append _ _ h)

/-! ## Claim theorems -/

/-- C5: the failure-level type coercion maps every string that
case-insensitively matches a FailureLevel member name to that member, so
error, ERROR and Error all resolve to FailureLevel.ERROR, and raises an
ArgumentTypeError for every string matching no member name
case-insensitively (a string of characters matches an all-uppercase member
name case-insensitively exactly when its uppercasing equals that name). -/
theorem c5_failure_level_type_case_insensitive :
    (_failure_level_type "error" = .ok FailureLevel.ERROR ∧
     _failure_level_type "ERROR" = .ok FailureLevel.ERROR ∧
     _failure_level_type "Error" = .ok FailureLevel.ERROR) ∧
    (∀ s : String, ∀ l : FailureLevel, pyUpper s = l.name →
      _failure_level_type s = .ok l) ∧
    (∀ s : String, (∀ l : FailureLevel, pyUpper s ≠ l.name) →
      ∃ msg, _failure_level_type s = .argumentTypeError msg) := by
  refine ⟨⟨by decide, by decide, by decide⟩, ?_, ?_⟩
  · intro s l h
    unfold _failure_level_type
    rw [h]
    cases l <;> rfl
  · intro s h
    unfold _failure_level_type
    cases hof : FailureLevel.ofName (pyUpper s) with
    | none => exact ⟨_, rfl⟩
    | some l => exact absurd (ofName_eq_some _ _ hof) (h l)

/-- C5 witness: the theorem applied at the concrete inputs Error and bogus. -/
theorem c5_witness :
    _failure_level_type "Error" = .ok FailureLevel.ERROR ∧
    ∃ msg, _failure_level_type "bogus" = .argumentTypeError msg :=
  ⟨c5_failure_level_type_case_insensitive.2.1 "Error" FailureLevel.ERROR (by decide),
   c5_failure_level_type_case_insensitive.2.2 "bogus" (by intro l; cases l <;> decide)⟩

/-- C8: invoking the CLI with no subcommand is a usage error with a non-zero
exit status (top-level subparsers are required), and the dcv subcommand
without its required nested sub-subcommand fails the same way. -/
theorem c8_subcommand_required :
    (∃ n, selectSubcommand [] = .usageExit n ∧ n ≠ 0) ∧
    (∃ n, selectSubcommand ["dcv"] = .usageExit n ∧ n ≠ 0) :=
  ⟨⟨2, by decide, by decide⟩, ⟨2, by decide, by decide⟩⟩

/-- C1: with unrecognized trailing tokens present, every subcommand except
ssh prints usage and exits with status 1 without its handler ever being
invoked, while the ssh subcommand has its handler invoked with those tokens
as the extra-arguments list. -/
theorem c1_extra_args_passthrough_only_ssh (args : ParsedArgs)
    (extra_args : List String) (env0 : Option String) (h : HandlerResult)
    (hne : extra_args ≠ []) :
    (args.command ≠ Subcommand.ssh →
      (mainDispatch args extra_args env0 h).invocation = none ∧
      (mainDispatch args extra_args env0 h).usagePrinted = true ∧
      (mainDispatch args extra_args env0 h).exitCode = 1) ∧
    (args.command = Subcommand.ssh →
      ∃ inv, (mainDispatch args extra_args env0 h).invocation = some inv ∧
        inv.extraArgsPassed = some extra_args) := by
  constructor
  · intro hns
    have hf : ¬(args.command.funcName = "ssh") := fun hx =>
      hns ((funcName_eq_ssh_iff args.command).mp hx)
    simp only [mainDispatch, if_neg hf, if_neg hne]
    exact ⟨trivial, trivial, trivial⟩
  · intro hs
    have hf : args.command.funcName = "ssh" := (funcName_eq_ssh_iff args.command).mpr hs
    simp only [mainDispatch, if_pos hf]
    exact ⟨_, afterHandler_invocation args _ (some extra_args) h, rfl⟩

/-- C1 witness: the theorem applied with the status subcommand and the ssh
subcommand, one unrecognized trailing token, and a normally returning
handler. -/
theorem c1_witness :
    ((mainDispatch ⟨Subcommand.status, none⟩ ["x"] none .ok).invocation = none ∧
     (mainDispatch ⟨Subcommand.status, none⟩ ["x"] none .ok).usagePrinted = true ∧
     (mainDispatch ⟨Subcommand.status, none⟩ ["x"] none .ok).exitCode = 1) ∧
    (∃ inv, (mainDispatch ⟨Subcommand.ssh, none⟩ ["x"] none .ok).invocation = some inv ∧
      inv.extraArgsPassed = some ["x"]) :=
  ⟨(c1_extra_args_passthrough_only_ssh ⟨Subcommand.status, none⟩ ["x"] none .ok
      (by decide)).1 (by decide),
   (c1_extra_args_passthrough_only_ssh ⟨Subcommand.ssh, none⟩ ["x"] none .ok
      (by decide)).2 rfl⟩

/-- C6: whenever a run of the dispatch body with a parsed region value of
us-west-2 invokes the handler, the AWS_DEFAULT_REGION environment variable
holds exactly us-west-2 at the moment of the call. -/
theorem c6_region_env_before_handler (args : ParsedArgs) (extra_args : List String)
    (env0 : Option String) (h : HandlerResult)
    (hr : args.region = some (some "us-west-2")) :
    ∀ inv, (mainDispatch args extra_args env0 h).invocation = some inv →
      inv.envAtCall = some "us-west-2" := by
  intro inv hinv
  have henv : setRegionEnv args env0 = some "us-west-2" := by
    simp [setRegionEnv, hr, truthyStr]
  unfold mainDispatch at hinv
  rw [henv] at hinv
  split at hinv
  · rw [afterHandler_invocation] at hinv
    cases hinv; rfl
  · split at hinv
    · rw [afterHandler_invocation] at hinv
      cases hinv; rfl
    · cases hinv

/-- C6 witness: the theorem applied with the create subcommand, region
us-west-2, no trailing tokens, and a normally returning handler. -/
theorem c6_witness :
    (mainDispatch ⟨Subcommand.create, some (some "us-west-2")⟩ [] none .ok).invocation =
      some ⟨"create", none, some "us-west-2"⟩ ∧
    (⟨"create", none, some "us-west-2"⟩ : Invocation).envAtCall = some "us-west-2" :=
  ⟨by decide,
   c6_region_env_before_handler ⟨Subcommand.create, some (some "us-west-2")⟩ [] none .ok
     rfl ⟨"create", none, some "us-west-2"⟩ (by decide)⟩

/-- C7: on every run of the dispatch body that reaches a handler invocation,
a normal handler return completes with the implicit success exit code 0,
each of the three distinguished failure categories (missing credentials,
user interrupt, any other exception) exits with code 1 after emitting a log
line, and no other exit code ever arises from the dispatch body. -/
theorem c7_exit_code_mapping (args : ParsedArgs) (extra_args : List String)
    (env0 : Option String) (h : HandlerResult)
    (hdisp : args.command = Subcommand.ssh ∨ extra_args = []) :
    (h = .ok → (mainDispatch args extra_args env0 h).exitCode = 0) ∧
    (∀ e, h = .raises e →
      (mainDispatch args extra_args env0 h).exitCode = 1 ∧
      (mainDispatch args extra_args env0 h).errorLogs ++
        (mainDispatch args extra_args env0 h).infoLogs ≠ []) ∧
    ((mainDispatch args extra_args env0 h).exitCode = 0 ∨
     (mainDispatch args extra_args env0 h).exitCode = 1) ∧
    (h = .raises .noCredentialsError →
      (mainDispatch args extra_args env0 h).errorLogs = ["AWS Credentials not found."]) ∧
    (h = .raises .keyboardInterrupt →
      (mainDispatch args extra_args env0 h).infoLogs = ["Exiting..."]) ∧
    (∀ tyName msg, h = .raises (.other tyName msg) →
      (mainDispatch args extra_args env0 h).errorLogs =
        ["Unexpected error of type " ++ tyName ++ ": " ++ msg]) := by
  have hbody : mainDispatch args extra_args env0 h =
      afterHandler args (setRegionEnv args env0)
        (if args.command.funcName = "ssh" then some extra_args else none) h := by
    unfold mainDispatch
    rcases hdisp with hs | hemp
    · have hf : args.command.funcName = "ssh" := (funcName_eq_ssh_iff args.command).mpr hs
      rw [if_pos hf, if_pos hf]
    · by_cases hf : args.command.funcName = "ssh"
      · rw [if_pos hf, if_pos hf]
      · rw [if_neg hf, if_neg hf, if_pos hemp]
  rw [hbody]
  refine ⟨fun hok => by rw [hok]; rfl, fun e hraise => ?_, ?_, fun hc => by rw [hc]; rfl,
    fun hk => by rw [hk]; rfl, fun tyName msg hx => by rw [hx]; rfl⟩
  · rw [hraise]
    cases e <;> exact ⟨rfl, by simp [afterHandler]⟩
  · cases h with
    | ok => exact Or.inl rfl
    | raises e => cases e <;> exact Or.inr rfl

/-- C7 witness: the theorem applied with the delete subcommand, no trailing
tokens, and a handler raising a generic exception. -/
theorem c7_witness :
    (mainDispatch ⟨Subcommand.delete, none⟩ [] none
        (.raises (.other "ValueError" "boom"))).exitCode = 1 ∧
    (mainDispatch ⟨Subcommand.delete, none⟩ [] none
        (.raises (.other "ValueError" "boom"))).errorLogs ++
      (mainDispatch ⟨Subcommand.delete, none⟩ [] none
        (.raises (.other "ValueError" "boom"))).infoLogs ≠ [] :=
  (c7_exit_code_mapping ⟨Subcommand.delete, none⟩ [] none
      (.raises (.other "ValueError" "boom")) (Or.inr rfl)).2.1
    (.other "ValueError" "boom") rfl

/-- C9: when a subcommand other than ssh is run with a truthy region value
and unrecognized trailing tokens, the dispatch body exits with the usage
error and status 1, the handler is never invoked, and AWS_DEFAULT_REGION
still holds the region value at exit: the environment mutation precedes the
unrecognized-arguments check and is not undone. -/
theorem c9_region_env_survives_usage_error (args : ParsedArgs)
    (extra_args : List String) (env0 : Option String) (h : HandlerResult)
    (r : String) (hns : args.command ≠ Subcommand.ssh) (hne : extra_args ≠ [])
    (hr : args.region = some (some r)) (hrt : r ≠ "") :
    (mainDispatch args extra_args env0 h).invocation = none ∧
    (mainDispatch args extra_args env0 h).usagePrinted = true ∧
    (mainDispatch args extra_args env0 h).exitCode = 1 ∧
    (mainDispatch args extra_args env0 h).finalEnv = some r := by
  have hf : ¬(args.command.funcName = "ssh") := fun hx =>
    hns ((funcName_eq_ssh_iff args.command).mp hx)
  have henv : setRegionEnv args env0 = some r := by
    simp [setRegionEnv, hr, truthyStr, hrt]
  simp only [mainDispatch, if_neg hf, if_neg hne, henv]
  exact ⟨trivial, trivial, trivial, trivial⟩

/-- C9 witness: the theorem applied with the status subcommand, region
us-west-2, and one unrecognized trailing token. -/
theorem c9_witness :
    (mainDispatch ⟨Subcommand.status, some (some "us-west-2")⟩ ["x"] none .ok).invocation
      = none ∧
    (mainDispatch ⟨Subcommand.status, some (some "us-west-2")⟩ ["x"] none .ok).usagePrinted
      = true ∧
    (mainDispatch ⟨Subcommand.status, some (some "us-west-2")⟩ ["x"] none .ok).exitCode
      = 1 ∧
    (mainDispatch ⟨Subcommand.status, some (some "us-west-2")⟩ ["x"] none .ok).finalEnv
      = some "us-west-2" :=
  c9_region_env_survives_usage_error ⟨Subcommand.status, some (some "us-west-2")⟩
    ["x"] none .ok "us-west-2" (by decide) (by decide) rfl (by decide)

/-- Decomposition of the wrapped message into the fixed prefix and a
remainder, witnessing that it begins with the fixed prefix. -/
theorem unableMsg_eq (e : String) : unableMsg e = fixedUnable ++ ("\n" ++ e) := by
  have h : "Unable to export image" ++ apos ++ "s logs.\n" = fixedUnable ++ "\n" := by decide
  show "Unable to export image" ++ apos ++ "s logs.\n" ++ e = fixedUnable ++ ("\n" ++ e)
  rw [h, String.append_assoc]

/-- C2: every exception raised by the log-export delegate is caught inside
execute, the outcome is the controlled error exit whose message is the fixed
prefix followed by the wrapped exception text, and no exception propagates
out of execute to the entrypoint. -/
theorem c2_delegate_failure_caught (fs : FsModel) (now : DateTime)
    (delegate : ExportCall → Except String Unit) (args : ExportArgs) (e : String)
    (hval : _validate_output_file_path fs (output_file_path fs now args) = .ok ())
    (hdel : delegate (mkExportCall args (output_file_path fs now args)) = .error e) :
    (ExportImageLogsCommand.execute fs now delegate args).outcome =
      .errorExit (fixedUnable ++ ("\n" ++ e)) ∧
    ∀ ex, (ExportImageLogsCommand.execute fs now delegate args).outcome ≠ .raised ex := by
  have hout : ExportImageLogsCommand.execute fs now delegate args =
      ⟨some (mkExportCall args (output_file_path fs now args)), .errorExit (unableMsg e)⟩ := by
    unfold ExportImageLogsCommand.execute
    rw [hval, hdel]
  rw [hout, unableMsg_eq]
  exact ⟨rfl, fun ex => by simp⟩

/-- C2 witness: the theorem applied with an always-failing delegate on a
filesystem where the default path is fresh and writable. -/
theorem c2_witness :
    (ExportImageLogsCommand.execute ⟨"/cwd", fun _ => false, fun _ => true⟩
        ⟨2026, 10, 12, 8, 41⟩ (fun _ => .error "boom")
        ⟨"ami-123", none, "my-bucket", none, false, none, none⟩).outcome =
      .errorExit (fixedUnable ++ ("\n" ++ "boom")) :=
  (c2_delegate_failure_caught ⟨"/cwd", fun _ => false, fun _ => true⟩
      ⟨2026, 10, 12, 8, 41⟩ (fun _ => .error "boom")
      ⟨"ami-123", none, "my-bucket", none, false, none, none⟩ "boom" rfl rfl).1

/-- C3: with no output value the workflow computes the default output path,
the realpath of image_id-logs-timestamp.tar.gz with the timestamp at minute
precision, absolute whenever the working directory is absolute; with a
truthy explicit output value that exact string is the computed path; and
whenever the delegate is reached it receives exactly the computed path. -/
theorem c3_output_path_computation (fs : FsModel) (now : DateTime)
    (delegate : ExportCall → Except String Unit) (args : ExportArgs) :
    (args.output = none →
      output_file_path fs now args =
        realpath fs.cwd (args.image_id ++ "-logs-" ++ strftime_YmdHM now ++ ".tar.gz") ∧
      (isAbsolutePath fs.cwd = true →
        isAbsolutePath (output_file_path fs now args) = true)) ∧
    (∀ p, args.output = some p → ¬(p = "") → output_file_path fs now args = p) ∧
    (∀ call, (ExportImageLogsCommand.execute fs now delegate args).delegateCalled =
        some call → call.output = output_file_path fs now args) := by
  refine ⟨fun ho => ?_, fun p ho hp => ?_, fun call hcall => ?_⟩
  · have hd : output_file_path fs now args =
        realpath fs.cwd (args.image_id ++ "-logs-" ++ strftime_YmdHM now ++ ".tar.gz") := by
      unfold output_file_path
      rw [ho]
      rfl
    exact ⟨hd, fun habs => hd ▸ isAbsolutePath_realpath fs.cwd _ habs⟩
  · unfold output_file_path
    rw [ho]
    simp [pyOr, hp]
  · unfold ExportImageLogsCommand.execute at hcall
    split at hcall
    · cases hcall
    · split at hcall
      · cases hcall
        rfl
      · cases hcall
        rfl

/-- C3 witness: the theorem applied on an absolute working directory with no
output value, and again with the explicit output value /tmp/out.tar.gz. -/
theorem c3_witness :
    (output_file_path ⟨"/cwd", fun _ => false, fun _ => true⟩ ⟨2026, 10, 12, 8, 41⟩
        ⟨"ami-123", none, "my-bucket", none, false, none, none⟩ =
      realpath "/cwd" ("ami-123" ++ "-logs-" ++
        strftime_YmdHM ⟨2026, 10, 12, 8, 41⟩ ++ ".tar.gz") ∧
     (isAbsolutePath "/cwd" = true →
      isAbsolutePath (output_file_path ⟨"/cwd", fun _ => false, fun _ => true⟩
        ⟨2026, 10, 12, 8, 41⟩
        ⟨"ami-123", none, "my-bucket", none, false, none, none⟩) = true)) ∧
    output_file_path ⟨"/cwd", fun _ => false, fun _ => true⟩ ⟨2026, 10, 12, 8, 41⟩
        ⟨"ami-123", some "/tmp/out.tar.gz", "my-bucket", none, false, none, none⟩ =
      "/tmp/out.tar.gz" :=
  ⟨(c3_output_path_computation ⟨"/cwd", fun _ => false, fun _ => true⟩
      ⟨2026, 10, 12, 8, 41⟩ (fun _ => .ok ())
      ⟨"ami-123", none, "my-bucket", none, false, none, none⟩).1 rfl,
   (c3_output_path_computation ⟨"/cwd", fun _ => false, fun _ => true⟩
      ⟨2026, 10, 12, 8, 41⟩ (fun _ => .ok ())
      ⟨"ami-123", some "/tmp/out.tar.gz", "my-bucket", none, false, none, none⟩).2.1
     "/tmp/out.tar.gz" rfl (by decide)⟩

/-- C4: when the computed output path already exists as a file, execute ends
in the controlled path-conflict error exit and the log-export delegate is
never invoked: validation strictly precedes delegation. -/
theorem c4_existing_file_blocks_delegate (fs : FsModel) (now : DateTime)
    (delegate : ExportCall → Except String Unit) (args : ExportArgs)
    (hex : fs.fileExists (output_file_path fs now args) = true) :
    (ExportImageLogsCommand.execute fs now delegate args).delegateCalled = none ∧
    ∃ msg, (ExportImageLogsCommand.execute fs now delegate args).outcome =
      .errorExit (fixedUnable ++ ("\n" ++ msg)) := by
  have hval : _validate_output_file_path fs (output_file_path fs now args) =
      .error ("File " ++ output_file_path fs now args ++ " already exists") := by
    unfold _validate_output_file_path
    rw [if_pos hex]
  have hout : ExportImageLogsCommand.execute fs now delegate args =
      ⟨none, .errorExit (unableMsg ("File " ++ output_file_path fs now args ++
        " already exists"))⟩ := by
    unfold ExportImageLogsCommand.execute
    rw [hval]
  rw [hout]
  exact ⟨rfl, _, by rw [unableMsg_eq]⟩

/-- C4 witness: the theorem applied on a filesystem where every path exists
as a file, with a delegate that would succeed if it were ever reached. -/
theorem c4_witness :
    (ExportImageLogsCommand.execute ⟨"/cwd", fun _ => true, fun _ => true⟩
        ⟨2026, 10, 12, 8, 41⟩ (fun _ => .ok ())
        ⟨"ami-123", none, "my-bucket", none, false, none, none⟩).delegateCalled = none :=
  (c4_existing_file_blocks_delegate ⟨"/cwd", fun _ => true, fun _ => true⟩
      ⟨2026, 10, 12, 8, 41⟩ (fun _ => .ok ())
      ⟨"ami-123", none, "my-bucket", none, false, none, none⟩ rfl).1

/-- C10: an explicit output value that is the empty string is falsy under the
or-expression of execute, so the run is identical to a run with no output
value and the computed path is the default timestamped one. -/
theorem c10_empty_output_treated_as_absent (fs : FsModel) (now : DateTime)
    (delegate : ExportCall → Except String Unit) (args : ExportArgs)
    (ho : args.output = some "") :
    ExportImageLogsCommand.execute fs now delegate args =
      ExportImageLogsCommand.execute fs now delegate
        ⟨args.image_id, none, args.bucket, args.bucketPrefixArg,
         args.keep_s3_objects, args.start_time, args.end_time⟩ ∧
    output_file_path fs now args =
      realpath fs.cwd (args.image_id ++ "-logs-" ++ strftime_YmdHM now ++ ".tar.gz") := by
  obtain ⟨i, o, b, bp, k, st, et⟩ := args
  cases ho
  exact ⟨rfl, rfl⟩

/-- C10 witness: the theorem applied with an empty explicit output value. -/
theorem c10_witness :
    ExportImageLogsCommand.execute ⟨"/cwd", fun _ => false, fun _ => true⟩
        ⟨2026, 10, 12, 8, 41⟩ (fun _ => .ok ())
        ⟨"ami-123", some "", "my-bucket", none, false, none, none⟩ =
      ExportImageLogsCommand.execute ⟨"/cwd", fun _ => false, fun _ => true⟩
        ⟨2026, 10, 12, 8, 41⟩ (fun _ => .ok ())
        ⟨"ami-123", none, "my-bucket", none, false, none, none⟩ :=
  (c10_empty_output_treated_as_absent ⟨"/cwd", fun _ => false, fun _ => true⟩
      ⟨2026, 10, 12, 8, 41⟩ (fun _ => .ok ())
      ⟨"ami-123", some "", "my-bucket", none, false, none, none⟩ rfl).1

end PCluster
